import Mathlib

/-!
Verification model of the Bowbaq/sheets Go library.

The development shallowly embeds the retry wrapper (client.go, function
googleRetry together with retry.Do of avast/retry-go v2.6.0), the
duplicate-sheet workaround and grid-range logic (sheet.go, functions
isFakeDuplicateSheetError, DuplicateSheet, GetSheet, BottomRight,
DataRange), and the cell-addressing layer (CellPos, CellRange,
RangeForData, FormatRange), which is modelled from the specification
because its source file is not part of the provided sources.
-/

/-- Model of a Go error value as it can reach the retry classifier:
a structured googleapi.Error with numeric Code and Message, a
net.OpError transport error, the io.EOF sentinel, or any other error
carrying only its message string. -/
inductive GoErr where
  | googleApi (code : Nat) (message : String)
  | netOp (message : String)
  | eof
  | generic (message : String)
  deriving DecidableEq, Repr

/-- Model of Go strings.Contains restricted to one starting position:
true when the needle (first argument) is an initial segment of the hay. -/
def strHasAt : List Char → List Char → Bool
  | [], _ => true
  | _ :: _, [] => false
  | n :: ns, h :: hs => n == h && strHasAt ns hs

/-- Model of Go strings.Contains on character lists: the needle occurs
as a contiguous segment of the hay. -/
def strFind (needle : List Char) : List Char → Bool
  | [] => strHasAt needle []
  | c :: rest => strHasAt needle (c :: rest) || strFind needle rest

/-- Model of Go strings.Contains. -/
def stringsContains (hay sub : String) : Bool :=
  strFind sub.data hay.data

/-- The Error() string of each modelled Go error: googleapi.Error
formats itself as "googleapi: Error <code>: <message>", net.OpError and
generic errors expose their message, io.EOF prints "EOF". -/
def errString : GoErr → String
  | .googleApi code message => "googleapi: Error " ++ Nat.repr code ++ ": " ++ message
  | .netOp message => message
  | .eof => "EOF"
  | .generic message => message

/-- Whether the error is a net.OpError (the Go type assertion
in googleRetry). -/
def GoErr.isNetOp : GoErr → Bool
  | .netOp _ => true
  | _ => false

/-- The RetryIf predicate of googleRetry (client.go lines 552 to 582):
retry net.OpError, any error whose Error() string mentions a connection
reset, the io.EOF sentinel, and the googleapi errors 429, 403 with
message Rate Limit Exceeded, and 500 to 599. -/
def googleRetryIf (err : GoErr) : Bool :=
  if err.isNetOp then true
  else if stringsContains (errString err) "connection reset by peer" then true
  else if err == .eof then true
  else
    match err with
    | .googleApi code message =>
      if code == 429 then true
      else if code == 403 && message == "Rate Limit Exceeded" then true
      else if 500 ≤ code && code ≤ 599 then true
      else false
    | _ => false

/-- Result of a run of retry.Do: either success, or the accumulated
error log. Both carry the number of invocations of the wrapped
operation and the number of sleeps performed. -/
inductive RetryResult where
  | ok (invocations delays : Nat)
  | failed (errorLog : List (Option GoErr)) (invocations delays : Nat)
  deriving DecidableEq, Repr

/-- Invocation count of a retry run. -/
def RetryResult.invocations : RetryResult → Nat
  | .ok i _ => i
  | .failed _ i _ => i

/-- Delay (sleep) count of a retry run. -/
def RetryResult.delays : RetryResult → Nat
  | .ok _ d => d
  | .failed _ _ d => d

/-- Whether a retry run succeeded. -/
def RetryResult.isOk : RetryResult → Bool
  | .ok _ _ => true
  | .failed _ _ _ => false

/-- The loop of retry.Do (avast/retry-go v2.6.0) with attempt counter n
and error log: on success return nil immediately; on failure record the
error at index n, break when the error is not retryable or when n is
the last attempt, otherwise sleep and continue. The operation is
modelled as a function from the attempt counter to an optional error.
The fuel argument mirrors the loop guard n < attempts: it is
initialised to attempts and decreases in step with n. -/
def retryLoop (op : Nat → Option GoErr) (retryIf : GoErr → Bool) (attempts : Nat) :
    Nat → Nat → List (Option GoErr) → Nat → RetryResult
  | 0, n, log, d => .failed log n d
  | fuel + 1, n, log, d =>
    match op n with
    | none => .ok (n + 1) d
    | some e =>
      let log2 := log.set n (some e)
      if !(retryIf e) then .failed log2 (n + 1) d
      else if n == attempts - 1 then .failed log2 (n + 1) d
      else retryLoop op retryIf attempts fuel (n + 1) log2 (d + 1)

/-- retry.Do as configured by googleRetry: five attempts, the
googleRetryIf classifier, and an error log of five slots. -/
def googleRetryRun (op : Nat → Option GoErr) : RetryResult :=
  retryLoop op googleRetryIf 5 5 0 (List.replicate 5 none) 0

/-- Model of sheets.CellData: only the effective string value is
inspected by the embedded code. -/
structure CellData where
  EffectiveString : Option String
  deriving DecidableEq, Repr

/-- Model of sheets.RowData: the list of cells of one row. -/
structure RowData where
  Values : List CellData
  deriving DecidableEq, Repr

/-- Model of sheets.GridData: the fetched rows of one grid block. -/
structure GridData where
  RowData : List RowData
  deriving DecidableEq, Repr

/-- Model of sheets.SheetProperties: title, id and index of a sheet. -/
structure SheetProperties where
  Title : String
  SheetId : Nat
  Index : Int
  deriving DecidableEq, Repr

/-- Model of a sheets.Sheet: its properties and fetched grid data. -/
structure Sheet where
  Properties : SheetProperties
  Data : List GridData
  deriving DecidableEq, Repr

/-- Model of a sheets.Spreadsheet: its id and its sheets. -/
structure Spreadsheet where
  SpreadsheetId : String
  Sheets : List Sheet
  deriving DecidableEq, Repr

/-- Model of Go strings.ToLower: lowercase every character. -/
def stringsToLower (s : String) : String :=
  ⟨s.data.map Char.toLower⟩

/-- The loop of Spreadsheet.GetSheet (sheet.go): scan the sheets in
order and return the first whose lowercased title equals the query. -/
def getSheetLoop (query : String) : List Sheet → Option Sheet
  | [] => none
  | sheet :: rest =>
    if stringsToLower sheet.Properties.Title == query then some sheet
    else getSheetLoop query rest

/-- Spreadsheet.GetSheet (sheet.go lines 36 to 46): lowercase the
requested title and scan for the first case-insensitive title match. -/
def GetSheet (s : Spreadsheet) (title : String) : Option Sheet :=
  getSheetLoop (stringsToLower title) s.Sheets

/-- Whether one logged attempt error is a 400 googleapi error whose
message mentions duplicateSheet (the inner test of
isFakeDuplicateSheetError). -/
def isDuplicateAttempt : Option GoErr → Bool
  | some (.googleApi code message) =>
    code == 400 && stringsContains message "duplicateSheet"
  | _ => false

/-- The loop of isFakeDuplicateSheetError: walk the wrapped per-attempt
errors with their index, clearing firstErrorIsNotDuplicate when the
index-0 error is a duplicate error and setting hasSubsequentDuplicate
when a later one is. The accumulator pairs the two flags. (The stderr
logging of the source has no observable effect on the result and is
not modelled.) -/
def fakeDupLoop : Nat → List (Option GoErr) → Bool × Bool → Bool × Bool
  | _, [], acc => acc
  | i, e :: rest, (firstNotDup, hasSub) =>
    let acc :=
      if isDuplicateAttempt e then
        if i == 0 then (false, hasSub) else (firstNotDup, true)
      else (firstNotDup, hasSub)
    fakeDupLoop (i + 1) rest acc

/-- isFakeDuplicateSheetError (sheet.go lines 110 to 136) applied to
the wrapped error list of a retry.Error: true when the first attempt
error is not a duplicate error and a subsequent attempt error is. -/
def isFakeDuplicateSheetError (errs : List (Option GoErr)) : Bool :=
  let flags := fakeDupLoop 0 errs (true, false)
  flags.1 && flags.2

/-- The error returned by a failed googleRetry call as seen by
DuplicateSheet: a retry.Error wrapping the per-attempt log, or any
other error. -/
inductive TopError where
  | retryErr (log : List (Option GoErr))
  | plain (e : GoErr)
  deriving DecidableEq, Repr

/-- The type assertion err.(retry.Error) guarding
isFakeDuplicateSheetError: a non retry.Error is never a fake
duplicate error. -/
def isFakeTop : TopError → Bool
  | .retryErr log => isFakeDuplicateSheetError log
  | .plain _ => false

/-- Model of sheets.DuplicateSheetRequest as built by DuplicateSheet. -/
structure DuplicateSheetRequest where
  InsertSheetIndex : Int
  NewSheetName : String
  SourceSheetId : Nat
  deriving DecidableEq, Repr

/-- Outcome of the retried DoBatch call: on success the spreadsheet is
replaced by the UpdatedSpreadsheet of the response, otherwise the
wrapped error is reported. -/
inductive BatchOutcome where
  | ok (updated : Spreadsheet)
  | fail (e : TopError)
  deriving DecidableEq, Repr

/-- The errors DuplicateSheet can return to its caller. -/
inductive DupError where
  | originMissing
  | destExists
  | wrapped (e : TopError)
  | refreshFailed (e : GoErr)
  | dupMissing
  deriving DecidableEq, Repr

/-- The maxIndex loop of DuplicateSheet (sheet.go lines 75 to 80). -/
def maxSheetIndex (s : Spreadsheet) : Int :=
  s.Sheets.foldl
    (fun m sheet => if sheet.Properties.Index > m then sheet.Properties.Index else m) 0

/-- Spreadsheet.DuplicateSheet (sheet.go lines 64 to 108). The remote
world is abstracted by the batch parameter, mapping the request that
DuplicateSheet builds to the outcome of the retried DoBatch call, and
by refetch, the outcome of Client.GetSpreadsheet used to refresh state
after a fake duplicate error. Returns the spreadsheet state after the
call together with the located duplicate sheet. -/
def DuplicateSheet (s : Spreadsheet) (title newTitle : String)
    (batch : DuplicateSheetRequest → BatchOutcome)
    (refetch : Except GoErr Spreadsheet) :
    Except DupError (Spreadsheet × Sheet) :=
  match GetSheet s title with
  | none => .error .originMissing
  | some origin =>
    match GetSheet s newTitle with
    | some _ => .error .destExists
    | none =>
      let req : DuplicateSheetRequest :=
        ⟨maxSheetIndex s + 1, newTitle, origin.Properties.SheetId⟩
      let afterBatch : Except DupError Spreadsheet :=
        match batch req with
        | .ok updated => .ok updated
        | .fail e =>
          if !(isFakeTop e) then .error (.wrapped e)
          else
            match refetch with
            | .error re => .error (.refreshFailed re)
            | .ok refreshed => .ok refreshed
      match afterBatch with
      | .error de => .error de
      | .ok s2 =>
        match GetSheet s2 newTitle with
        | none => .error .dupMissing
        | some duplicate => .ok (s2, duplicate)

/-- A cell position: zero-based row and column indices. -/
structure CellPos where
  Row : Nat
  Col : Nat
  deriving DecidableEq, Repr

/-- An inclusive rectangular block of cells. -/
structure CellRange where
  Start : CellPos
  End : CellPos
  deriving DecidableEq, Repr

/-- A sheet name together with a cell range. -/
structure SheetRange where
  SheetName : String
  Range : CellRange
  deriving DecidableEq, Repr

/-- Sheet.TopLeft (sheet.go lines 142 to 144). -/
def TopLeft : CellPos := ⟨0, 0⟩

/-- Sheet.BottomRight (sheet.go lines 146 to 162): with no grid data
the top left cell; otherwise rows is the length of the first grid
block minus one when positive, and cols is the length of the first row
of that block minus one when positive. -/
def BottomRight (s : Sheet) : CellPos :=
  match s.Data with
  | [] => TopLeft
  | g :: _ =>
    match g.RowData with
    | [] => ⟨0, 0⟩
    | r0 :: rs =>
      let rows := (r0 :: rs).length - 1
      let cols := if r0.Values.length > 0 then r0.Values.length - 1 else 0
      ⟨rows, cols⟩

/-- Sheet.DataRange (sheet.go lines 164 to 172): the sheet title with
the range from TopLeft to BottomRight. -/
def DataRange (s : Sheet) : SheetRange :=
  { SheetName := s.Properties.Title
    Range := { Start := TopLeft, End := BottomRight s } }

/-- The maximum row width of a tabular data block. -/
def maxRowWidth (data : List (List String)) : Nat :=
  (data.map List.length).foldr max 0

/-- Modelled from the spec: CellPos.RangeForData lives in the
cell-addressing source file of the repository, which is absent from
src/. Per the spec, End.Row = anchor.Row + max(0, rowCount - 1) and
End.Col = anchor.Col + max(0, maxColumnCountAcrossRows - 1); with
zero-based Nat coordinates the truncated subtraction realises the
max(0, _). -/
def RangeForData (anchor : CellPos) (data : List (List String)) : CellRange :=
  { Start := anchor
    End := { Row := anchor.Row + (data.length - 1)
             Col := anchor.Col + (maxRowWidth data - 1) } }

/-- Modelled from the spec: the column-letter conversion of the
cell-addressing source file, absent from src/. Bijective base-26 over
the alphabet: the zero-based column index yields its least significant
letter from index mod 26, then recurses on index / 26 - 1 while the
index is at least 26. The fuel argument bounds the recursion depth; it
is initialised to the index itself, which always suffices since the
recursive call at least halves the index. -/
def colLettersGo : Nat → Nat → List Char → List Char
  | 0, c, acc => Char.ofNat (65 + c % 26) :: acc
  | fuel + 1, c, acc =>
    if c < 26 then Char.ofNat (65 + c % 26) :: acc
    else colLettersGo fuel (c / 26 - 1) (Char.ofNat (65 + c % 26) :: acc)

/-- Modelled from the spec: zero-based column index to its letter
form, 0 to A, 25 to Z, 26 to AA. -/
def colLetters (c : Nat) : String :=
  ⟨colLettersGo c c []⟩

/-- Modelled from the spec: serialization of one cell position in A1
form, letter-encoded column followed by the 1-based decimal row. -/
def cellA1 (p : CellPos) : String :=
  colLetters p.Col ++ Nat.repr (p.Row + 1)

/-- Modelled from the spec: FormatRange of the cell-addressing source
file, absent from src/. Builds sheetName, an exclamation mark, the A1
form of Start, a colon, and the A1 form of End. -/
def FormatRange (sheetName : String) (r : CellRange) : String :=
  sheetName ++ "!" ++ cellA1 r.Start ++ ":" ++ cellA1 r.End

/-- Numeric value of a letter list read as bijective base-26 digits,
A counting as 1. Used as the inverse reading of colLetters. -/
def lettersVal (cs : List Char) : Nat :=
  cs.foldl (fun acc c => acc * 26 + (c.toNat - 64)) 0

/-- Zero-based column index denoted by a letter string: its bijective
base-26 value minus one. -/
def lettersToIndex (s : String) : Nat :=
  lettersVal s.data - 1

/-- The ragged fetched grid used to analyse BottomRight: one grid block
whose three rows have 3, 5 and 2 cells. -/
def raggedSheet : Sheet :=
  { Properties := { Title := "T", SheetId := 0, Index := 0 }
    Data := [{ RowData := [{ Values := List.replicate 3 { EffectiveString := none } },
                           { Values := List.replicate 5 { EffectiveString := none } },
                           { Values := List.replicate 2 { EffectiveString := none } }] }] }

/- Helper lemmas. -/

/-- Once the attempt index is positive, the fake-duplicate loop leaves
the first flag untouched and ors the duplicate test over the rest. -/
theorem fakeDupLoop_shift (rest : List (Option GoErr)) :
    ∀ (i : Nat) (f h : Bool),
      fakeDupLoop (i + 1) rest (f, h) = (f, h || rest.any isDuplicateAttempt) := by
  induction rest with
  | nil => intro i f h; simp [fakeDupLoop]
  | cons e rest ih =>
    intro i f h
    by_cases hd : isDuplicateAttempt e
    · simp [fakeDupLoop, hd, ih]
    · simp [fakeDupLoop, hd, ih]

/-- C1: isFakeDuplicateSheetError classifies a per-attempt error
sequence as a disguised success if and only if the first attempt error
is not a 400 duplicateSheet error and some subsequent attempt error
is one; the sequence [non-duplicate-400, 500, duplicate-400] is
classified as disguised success and [duplicate-400, duplicate-400] as
a genuine pre-existing-resource error. -/
theorem claim1_fake_duplicate_detection :
    (∀ errs : List (Option GoErr),
      isFakeDuplicateSheetError errs =
        (!(isDuplicateAttempt (errs.getD 0 none))
          && (errs.drop 1).any isDuplicateAttempt))
    ∧ isFakeDuplicateSheetError
        [some (.googleApi 400 "badRequest"),
         some (.googleApi 500 "Internal error"),
         some (.googleApi 400 "duplicateSheet already exists")] = true
    ∧ isFakeDuplicateSheetError
        [some (.googleApi 400 "Invalid requests[0].duplicateSheet"),
         some (.googleApi 400 "Invalid requests[0].duplicateSheet")] = false := by
  refine ⟨?_, by decide, by decide⟩
  intro errs
  cases errs with
  | nil => decide
  | cons e rest =>
    by_cases hd : isDuplicateAttempt e
    · simp [isFakeDuplicateSheetError, fakeDupLoop, hd, fakeDupLoop_shift rest 0]
    · simp [isFakeDuplicateSheetError, fakeDupLoop, hd, fakeDupLoop_shift rest 0]

/-- C4: googleRetryIf accepts exactly the HTTP 429 responses, the 500
to 599 responses, the 403 response with message Rate Limit Exceeded,
the net.OpError network errors, the errors whose message mentions a
connection reset by peer, and the io.EOF sentinel. -/
theorem claim4_retry_classification :
    ∀ e : GoErr, googleRetryIf e = true ↔
      ((∃ m, e = .googleApi 429 m)
        ∨ (∃ c m, e = .googleApi c m ∧ 500 ≤ c ∧ c ≤ 599)
        ∨ e = .googleApi 403 "Rate Limit Exceeded"
        ∨ (∃ m, e = .netOp m)
        ∨ stringsContains (errString e) "connection reset by peer" = true
        ∨ e = .eof) := by
  intro e
  cases e with
  | googleApi c m =>
    constructor
    · intro htrue
      by_cases hcr : stringsContains (errString (.googleApi c m)) "connection reset by peer" = true
      · exact Or.inr (Or.inr (Or.inr (Or.inr (Or.inl hcr))))
      · have hcond : (if c == 429 then true
            else if c == 403 && m == "Rate Limit Exceeded" then true
            else if 500 ≤ c && c ≤ 599 then true else false) = true := by
          simpa [googleRetryIf, GoErr.isNetOp, hcr] using htrue
        by_cases h429 : c = 429
        · exact Or.inl ⟨m, by rw [h429]⟩
        · by_cases h403 : c = 403 ∧ m = "Rate Limit Exceeded"
          · exact Or.inr (Or.inr (Or.inl (by rw [h403.1, h403.2])))
          · by_cases h5 : 500 ≤ c ∧ c ≤ 599
            · exact Or.inr (Or.inl ⟨c, m, rfl, h5.1, h5.2⟩)
            · exfalso
              have hb : (c == 429) = false := by simp [h429]
              have hb2 : (c == 403 && m == "Rate Limit Exceeded") = false := by
                rcases Decidable.not_and_iff_or_not.mp h403 with h | h <;> simp [h]
              have hb3 : ((500 ≤ c : Bool) && (c ≤ 599 : Bool)) = false := by
                rcases Decidable.not_and_iff_or_not.mp h5 with h | h <;> simp [h]
              rw [hb, hb2] at hcond
              simp only [Bool.false_eq_true, if_false] at hcond
              rw [hb3] at hcond
              simp at hcond
    · rintro (⟨m2, hm2⟩ | ⟨c2, m2, he, hl, hr⟩ | he | ⟨m2, hm2⟩ | hcr | he)
      · cases hm2
        simp [googleRetryIf, GoErr.isNetOp]
      · cases he
        have h1 : (c == 429) = false := by simp; omega
        have h2 : (c == 403) = false := by simp; omega
        have h3 : ((500 ≤ c : Bool) && (c ≤ 599 : Bool)) = true := by simp [hl, hr]
        simp [googleRetryIf, GoErr.isNetOp, h1, h2, h3]
      · cases he
        simp [googleRetryIf, GoErr.isNetOp]
      · exact GoErr.noConfusion hm2
      · simp [googleRetryIf, GoErr.isNetOp, hcr]
      · exact GoErr.noConfusion he
  | netOp m => simp [googleRetryIf, GoErr.isNetOp]
  | eof => simp [googleRetryIf, GoErr.isNetOp]
  | generic m =>
    by_cases hcr : stringsContains (errString (.generic m)) "connection reset by peer" = true
    · simp [googleRetryIf, GoErr.isNetOp, hcr]
    · simp [googleRetryIf, GoErr.isNetOp, hcr]

/-- C5: an operation that always fails with a non-retryable error is
invoked exactly once, with no delay, and its error is the only entry of
the returned error log. -/
theorem claim5_nonretryable_returns_immediately (e : GoErr) (op : Nat → Option GoErr)
    (hcls : googleRetryIf e = false) (hop : ∀ n, op n = some e) :
    googleRetryRun op = .failed [some e, none, none, none, none] 1 0 := by
  show retryLoop op googleRetryIf 5 5 0 (List.replicate 5 none) 0 = _
  rw [show (5 : Nat) = 4 + 1 from rfl]
  simp only [retryLoop, hop 0, hcls]
  rfl

/-- Witness for C5 at an HTTP 404 error. -/
theorem claim5_witness :
    googleRetryRun (fun _ => some (.googleApi 404 "Not Found")) =
      .failed [some (.googleApi 404 "Not Found"), none, none, none, none] 1 0 :=
  claim5_nonretryable_returns_immediately (.googleApi 404 "Not Found") _
    (by decide) (fun _ => rfl)

/-- C3: with no grid blocks, or a first grid block with no rows,
DataRange is the single-cell range at row 0, column 0. -/
theorem claim3_empty_grid_single_cell (s : Sheet)
    (h : s.Data = [] ∨ ∃ g gs, s.Data = g :: gs ∧ g.RowData = []) :
    DataRange s =
      { SheetName := s.Properties.Title
        Range := { Start := ⟨0, 0⟩, End := ⟨0, 0⟩ } } := by
  rcases h with h | ⟨g, gs, hd, hr⟩
  · simp [DataRange, BottomRight, TopLeft, h]
  · simp [DataRange, BottomRight, TopLeft, hd, hr]

/-- Witness for C3 at a sheet with no fetched grid data. -/
theorem claim3_witness :
    DataRange { Properties := { Title := "T", SheetId := 0, Index := 0 }, Data := [] } =
      { SheetName := "T", Range := { Start := ⟨0, 0⟩, End := ⟨0, 0⟩ } } :=
  claim3_empty_grid_single_cell _ (Or.inl rfl)

/-- C2 counterexample: on the ragged grid with row lengths [3, 5, 2],
BottomRight returns column index 2, a width of 3 taken from the first
row, not the width 5 the claim requires. -/
theorem claim2_counterexample :
    (raggedSheet.Data.map fun g => g.RowData.map fun r => r.Values.length) = [[3, 5, 2]]
    ∧ BottomRight raggedSheet = ⟨2, 2⟩
    ∧ ¬(BottomRight raggedSheet).Col + 1 = 5 := by
  refine ⟨rfl, rfl, by decide⟩

/-- C2 amended: BottomRight tolerates ragged rows without error, and
the column count of the first row (not the maximum across rows)
determines the width of the returned range; the row count of the first
grid block determines its height. -/
theorem claim2_first_row_width (s : Sheet) (g : GridData) (gs : List GridData)
    (r0 : RowData) (rs : List RowData)
    (hd : s.Data = g :: gs) (hr : g.RowData = r0 :: rs) :
    BottomRight s = ⟨rs.length, r0.Values.length - 1⟩ := by
  simp only [BottomRight, hd, hr]
  by_cases h0 : r0.Values.length > 0
  · simp [h0]
  · simp only [h0, if_false]
    have : r0.Values.length = 0 := by omega
    simp [this]

/-- Witness for C2 amended at the ragged grid with row lengths
[3, 5, 2]: the width is 3, so the column index is 2. -/
theorem claim2_witness : BottomRight raggedSheet = ⟨2, 2⟩ := by
  exact claim2_first_row_width raggedSheet
    { RowData := [{ Values := List.replicate 3 { EffectiveString := none } },
                  { Values := List.replicate 5 { EffectiveString := none } },
                  { Values := List.replicate 2 { EffectiveString := none } }] }
    [] { Values := List.replicate 3 { EffectiveString := none } }
    [{ Values := List.replicate 5 { EffectiveString := none } },
     { Values := List.replicate 2 { EffectiveString := none } }]
    rfl rfl

/-- If the operation fails retryably at the m attempt counters starting
from n and succeeds at counter n + m, and the run cannot hit the
last-attempt break before that, the loop succeeds after m further
delays with n + m + 1 invocations in total. Stated for the five-attempt
configuration of googleRetry. -/
theorem retryLoop_ok_of_success (op : Nat → Option GoErr) (rif : GoErr → Bool) :
    ∀ (m fuel n : Nat) (log : List (Option GoErr)) (d : Nat),
      m < fuel → n + m + 1 ≤ 5 →
      (∀ i, i < m → ∃ e, op (n + i) = some e ∧ rif e = true) →
      op (n + m) = none →
      retryLoop op rif 5 fuel n log d = .ok (n + m + 1) (d + m) := by
  intro m
  induction m with
  | zero =>
    intro fuel n log d hfuel _ _ hsucc
    match fuel, hfuel with
    | f + 1, _ =>
      simp only [retryLoop]
      rw [show n + 0 = n from rfl] at hsucc
      rw [hsucc]
      simp
  | succ m ih =>
    intro fuel n log d hfuel hle hfail hsucc
    match fuel, hfuel with
    | f + 1, hfuel =>
      obtain ⟨e, he, hre⟩ := hfail 0 (Nat.succ_pos m)
      rw [show n + 0 = n from rfl] at he
      have hne : (n == 5 - 1) = false := by simp; omega
      simp only [retryLoop, he, hre, Bool.not_true, Bool.false_eq_true, if_false, hne]
      have hrec := ih f (n + 1) (log.set n (some e)) (d + 1)
        (by omega) (by omega)
        (fun i hi => by
          have := hfail (i + 1) (by omega)
          rwa [show n + (i + 1) = n + 1 + i by omega] at this)
        (by rwa [show n + 1 + m = n + (m + 1) by omega])
      rw [hrec]
      have h1 : n + 1 + m + 1 = n + (m + 1) + 1 := by omega
      have h2 : d + 1 + m = d + (m + 1) := by omega
      rw [h1, h2]

/-- The loop never makes more invocations than the attempt counter
plus the remaining fuel. -/
theorem retryLoop_invocations_le (op : Nat → Option GoErr) (rif : GoErr → Bool)
    (attempts : Nat) :
    ∀ (fuel n : Nat) (log : List (Option GoErr)) (d : Nat),
      (retryLoop op rif attempts fuel n log d).invocations ≤ n + fuel := by
  intro fuel
  induction fuel with
  | zero =>
    intro n log d
    simp [retryLoop, RetryResult.invocations]
  | succ f ih =>
    intro n log d
    simp only [retryLoop]
    cases hop : op n with
    | none => simp [RetryResult.invocations]
    | some e =>
      by_cases hre : rif e
      · simp only [hre, Bool.not_true, Bool.false_eq_true, if_false]
        by_cases hlast : (n == attempts - 1) = true
        · simp [hlast, RetryResult.invocations]
        · simp only [hlast, Bool.false_eq_true, if_false]
          have := ih (n + 1) (log.set n (some e)) (d + 1)
          calc (retryLoop op rif attempts f (n + 1) (log.set n (some e)) (d + 1)).invocations
              ≤ n + 1 + f := this
            _ = n + (f + 1) := by omega
      · simp [hre, RetryResult.invocations]

/-- C6: an operation failing retryably on its first k attempts
(k at most 4) and succeeding on attempt k + 1 yields success after
exactly k + 1 invocations and k delays; no operation is ever invoked
more than 5 times; failing twice with 429 then succeeding yields
success after 3 attempts and 2 delays, and failing attempts 1 to 4
with 500 then succeeding on attempt 5 yields success. -/
theorem claim6_retry_until_success (op : Nat → Option GoErr) (k : Nat)
    (hk : k ≤ 4)
    (hfail : ∀ i, i < k → ∃ e, op i = some e ∧ googleRetryIf e = true)
    (hsucc : op k = none) :
    googleRetryRun op = .ok (k + 1) k
    ∧ (∀ op2 : Nat → Option GoErr, (googleRetryRun op2).invocations ≤ 5)
    ∧ googleRetryRun
        (fun n => if n < 2 then some (.googleApi 429 "Too Many Requests") else none) =
        .ok 3 2
    ∧ googleRetryRun
        (fun n => if n < 4 then some (.googleApi 500 "Internal Server Error") else none) =
        .ok 5 4 := by
  refine ⟨?_, ?_, by decide, by decide⟩
  · have := retryLoop_ok_of_success op googleRetryIf k 5 0 (List.replicate 5 none) 0
      (by omega) (by omega)
      (fun i hi => by simpa using hfail i hi)
      (by simpa using hsucc)
    simpa [googleRetryRun] using this
  · intro op2
    have := retryLoop_invocations_le op2 googleRetryIf 5 5 0 (List.replicate 5 none) 0
    simpa [googleRetryRun] using this

/-- Witness for C6: two 429 failures followed by success give exactly
three invocations and two delays. -/
theorem claim6_witness :
    googleRetryRun
      (fun n => if n < 2 then some (.googleApi 429 "Too Many Requests") else none) =
      .ok 3 2 :=
  (claim6_retry_until_success
    (fun n => if n < 2 then some (.googleApi 429 "Too Many Requests") else none) 2
    (by omega)
    (fun i hi => ⟨.googleApi 429 "Too Many Requests", by simp [hi], by decide⟩)
    (by simp)).1

/-- C7 counterexample: the tabular data [[]] is non-empty, yet the
claimed width equation fails on it: the range spans one column while
the maximum row width is zero. -/
theorem claim7_counterexample :
    ([([] : List String)] ≠ ([] : List (List String)))
    ∧ (RangeForData ⟨0, 0⟩ [[]]).End.Col - (RangeForData ⟨0, 0⟩ [[]]).Start.Col + 1 = 1
    ∧ maxRowWidth [[]] = 0
    ∧ ¬(RangeForData ⟨0, 0⟩ [[]]).End.Col - (RangeForData ⟨0, 0⟩ [[]]).Start.Col + 1
        = maxRowWidth [[]] := by
  refine ⟨by decide, rfl, rfl, by decide⟩

/-- C7 amended: for non-empty data the height equation always holds,
the width equation holds as soon as some row is non-empty (maximum row
width at least 1), and on empty data RangeForData returns the
single-cell range at the anchor. -/
theorem claim7_range_for_data (p : CellPos) (d : List (List String))
    (hne : d ≠ []) :
    ((RangeForData p d).End.Row - (RangeForData p d).Start.Row + 1 = d.length)
    ∧ (1 ≤ maxRowWidth d →
        (RangeForData p d).End.Col - (RangeForData p d).Start.Col + 1 = maxRowWidth d)
    ∧ (∀ q : CellPos, RangeForData q [] = { Start := q, End := q }) := by
  have hlen : 1 ≤ d.length := by
    cases d with
    | nil => exact absurd rfl hne
    | cons x xs => simp
  refine ⟨?_, ?_, ?_⟩
  · simp only [RangeForData]
    omega
  · intro hw
    simp only [RangeForData]
    omega
  · intro q
    rfl

/-- Witness for C7 amended at anchor (0, 0) and the ragged data
[[a, b], [c]]: height 2 and width 2. -/
theorem claim7_witness :
    ((RangeForData ⟨0, 0⟩ [["a", "b"], ["c"]]).End.Row
        - (RangeForData ⟨0, 0⟩ [["a", "b"], ["c"]]).Start.Row + 1 = 2)
    ∧ ((RangeForData ⟨0, 0⟩ [["a", "b"], ["c"]]).End.Col
        - (RangeForData ⟨0, 0⟩ [["a", "b"], ["c"]]).Start.Col + 1
          = maxRowWidth [["a", "b"], ["c"]]) :=
  ⟨(claim7_range_for_data ⟨0, 0⟩ [["a", "b"], ["c"]] (by decide)).1,
   (claim7_range_for_data ⟨0, 0⟩ [["a", "b"], ["c"]] (by decide)).2.1 (by decide)⟩

/-- The letter built for a base-26 digit has the expected code point. -/
theorem toNat_letterChar (r : Nat) (h : r < 26) :
    (Char.ofNat (65 + r)).toNat = 65 + r := by
  interval_cases r <;> decide

/-- Folding the bijective base-26 evaluation from an arbitrary
accumulator scales the accumulator by 26 to the length of the list. -/
theorem lettersVal_foldl (cs : List Char) :
    ∀ a : Nat, cs.foldl (fun acc c => acc * 26 + (c.toNat - 64)) a
      = a * 26 ^ cs.length + lettersVal cs := by
  induction cs with
  | nil => intro a; simp [lettersVal]
  | cons c cs ih =>
    intro a
    simp only [List.foldl_cons, List.length_cons, lettersVal]
    rw [ih (a * 26 + (c.toNat - 64)), ih (0 * 26 + (c.toNat - 64))]
    ring

/-- Bijective base-26 evaluation of a cons: the head digit scaled by
the weight of the tail. -/
theorem lettersVal_cons (c : Char) (cs : List Char) :
    lettersVal (c :: cs) = (c.toNat - 64) * 26 ^ cs.length + lettersVal cs := by
  show List.foldl (fun acc ch => acc * 26 + (ch.toNat - 64)) (0 * 26 + (c.toNat - 64)) cs = _
  rw [lettersVal_foldl cs]
  norm_num

/-- Value of the letter list produced by the conversion loop: the
converted index plus one, scaled past the accumulator digits. -/
theorem lettersVal_colLettersGo :
    ∀ (fuel c : Nat) (acc : List Char), c ≤ fuel →
      lettersVal (colLettersGo fuel c acc)
        = (c + 1) * 26 ^ acc.length + lettersVal acc := by
  intro fuel
  induction fuel with
  | zero =>
    intro c acc hc
    have hc0 : c = 0 := by omega
    subst hc0
    show lettersVal (Char.ofNat (65 + 0 % 26) :: acc) = _
    rw [lettersVal_cons]
    have h65 : (Char.ofNat (65 + 0 % 26)).toNat = 65 := by decide
    rw [h65]
  | succ f ih =>
    intro c acc hc
    by_cases h26 : c < 26
    · simp only [colLettersGo]
      rw [if_pos h26, lettersVal_cons,
        toNat_letterChar (c % 26) (Nat.mod_lt _ (by omega)), Nat.mod_eq_of_lt h26]
      have hd : 65 + c - 64 = c + 1 := by omega
      rw [hd]
    · simp only [colLettersGo]
      rw [if_neg h26, ih (c / 26 - 1) _ (by omega), lettersVal_cons,
        toNat_letterChar (c % 26) (Nat.mod_lt _ (by omega))]
      have hq : c / 26 - 1 + 1 = c / 26 := by omega
      have hd : 65 + c % 26 - 64 = c % 26 + 1 := by omega
      simp only [List.length_cons]
      rw [hq, hd, pow_succ]
      set q := c / 26 with hqdef
      set r := c % 26 with hrdef
      have hsplit : c = 26 * q + r := by omega
      rw [hsplit]
      ring

/-- C8: column letters hit the known fixtures, the conversion is
inverted by the bijective base-26 reading for every column index
(hence the 26-letter carry is correct on all 18278 columns of at most
three letters and beyond), and FormatRange serializes a sheet name and
range in A1 form with 1-based decimal rows. -/
theorem claim8_format_range :
    colLetters 0 = "A"
    ∧ colLetters 25 = "Z"
    ∧ colLetters 26 = "AA"
    ∧ colLetters 701 = "ZZ"
    ∧ colLetters 702 = "AAA"
    ∧ (colLetters 18277).length = 3
    ∧ (∀ c : Nat, lettersToIndex (colLetters c) = c)
    ∧ FormatRange "Sheet1" { Start := ⟨0, 0⟩, End := ⟨9, 2⟩ } = "Sheet1!A1:C10" := by
  refine ⟨by decide, by decide, by decide, by decide, by decide, by decide, ?_, by decide⟩
  intro c
  have h := lettersVal_colLettersGo c c [] (Nat.le_refl c)
  simp only [List.length_nil, pow_zero, Nat.mul_one] at h
  have hnil : lettersVal [] = 0 := rfl
  rw [hnil] at h
  show lettersVal (colLettersGo c c []) - 1 = c
  omega

/-- The scan returns none exactly when no sheet title matches the
query after lowercasing. -/
theorem getSheetLoop_eq_none (query : String) :
    ∀ l : List Sheet, getSheetLoop query l = none ↔
      ∀ sh ∈ l, ¬ (stringsToLower sh.Properties.Title) = query := by
  intro l
  induction l with
  | nil => simp [getSheetLoop]
  | cons sheet rest ih =>
    by_cases hm : (stringsToLower sheet.Properties.Title) = query
    · simp [getSheetLoop, hm]
    · simp only [getSheetLoop, hm]
      have hb : ((stringsToLower sheet.Properties.Title) == query) = false := by simp [hm]
      rw [hb]
      simp only [Bool.false_eq_true, if_false, ih, List.mem_cons]
      constructor
      · intro h sh hsh
        rcases hsh with h1 | h2
        · rw [h1]; exact hm
        · exact h sh h2
      · intro h sh hsh
        exact h sh (Or.inr hsh)

/-- The scan returns a sheet exactly when it is the first match: the
sheets before it in the list do not match the query. -/
theorem getSheetLoop_eq_some (query : String) :
    ∀ (l : List Sheet) (sh : Sheet), getSheetLoop query l = some sh →
      ∃ pre post, l = pre ++ sh :: post
        ∧ (stringsToLower sh.Properties.Title) = query
        ∧ ∀ x ∈ pre, ¬ (stringsToLower x.Properties.Title) = query := by
  intro l
  induction l with
  | nil => intro sh h; exact absurd h (by simp [getSheetLoop])
  | cons sheet rest ih =>
    intro sh h
    by_cases hm : (stringsToLower sheet.Properties.Title) = query
    · have hb : ((stringsToLower sheet.Properties.Title) == query) = true := by simp [hm]
      simp only [getSheetLoop, hb, if_true, Option.some.injEq] at h
      subst h
      exact ⟨[], rest, rfl, hm, by simp⟩
    · have hb : ((stringsToLower sheet.Properties.Title) == query) = false := by simp [hm]
      simp only [getSheetLoop, hb, Bool.false_eq_true, if_false] at h
      obtain ⟨pre, post, hl, hq, hpre⟩ := ih sh h
      refine ⟨sheet :: pre, post, by rw [hl]; rfl, hq, ?_⟩
      intro x hx
      rcases List.mem_cons.mp hx with h1 | h2
      · rw [h1]; exact hm
      · exact hpre x h2

/-- C9: when the retried batch request of DuplicateSheet fails, the
wrapped error is returned to the caller, except exactly in the
disguised-success case, where the spreadsheet is refreshed from the
refetch and the new sheet found in it is returned as a success. -/
theorem claim9_duplicate_sheet_error_path (s : Spreadsheet) (title newTitle : String)
    (origin : Sheet) (e : TopError) (refetch : Except GoErr Spreadsheet)
    (ho : GetSheet s title = some origin)
    (hd : GetSheet s newTitle = none) :
    (isFakeTop e = false →
      DuplicateSheet s title newTitle (fun _ => .fail e) refetch
        = .error (.wrapped e))
    ∧ (isFakeTop e = true →
        ∀ (s2 : Spreadsheet) (dup : Sheet), refetch = .ok s2 →
          GetSheet s2 newTitle = some dup →
          DuplicateSheet s title newTitle (fun _ => .fail e) refetch
            = .ok (s2, dup)) := by
  constructor
  · intro hfake
    simp [DuplicateSheet, ho, hd, hfake]
  · intro hfake s2 dup hre hdup
    simp [DuplicateSheet, ho, hd, hfake, hre, hdup]

/-- Witness for C9: a retry.Error log [400 non-duplicate, 500,
400 duplicateSheet] is a disguised success, and DuplicateSheet returns
the sheet found after the refresh. -/
theorem claim9_witness :
    DuplicateSheet
      { SpreadsheetId := "id", Sheets := [{ Properties := { Title := "Data", SheetId := 1, Index := 0 }, Data := [] }] }
      "Data" "Copy"
      (fun _ => .fail (.retryErr
        [some (.googleApi 400 "badRequest"),
         some (.googleApi 500 "Internal error"),
         some (.googleApi 400 "duplicateSheet exists")]))
      (.ok { SpreadsheetId := "id",
             Sheets := [{ Properties := { Title := "Data", SheetId := 1, Index := 0 }, Data := [] },
                        { Properties := { Title := "Copy", SheetId := 2, Index := 1 }, Data := [] }] })
      = .ok
        ({ SpreadsheetId := "id",
           Sheets := [{ Properties := { Title := "Data", SheetId := 1, Index := 0 }, Data := [] },
                      { Properties := { Title := "Copy", SheetId := 2, Index := 1 }, Data := [] }] },
         { Properties := { Title := "Copy", SheetId := 2, Index := 1 }, Data := [] }) :=
  (claim9_duplicate_sheet_error_path _ "Data" "Copy"
      { Properties := { Title := "Data", SheetId := 1, Index := 0 }, Data := [] }
      (.retryErr
        [some (.googleApi 400 "badRequest"),
         some (.googleApi 500 "Internal error"),
         some (.googleApi 400 "duplicateSheet exists")])
      _ (by decide) (by decide)).2 (by decide) _ _ rfl (by decide)

/-- C10: GetSheet matches titles case-insensitively, returning none
exactly when no sheet title matches after lowercasing both sides, and
otherwise the first matching sheet; consequently DuplicateSheet
refuses a destination name that differs from an existing sheet title
only by letter case. -/
theorem claim10_get_sheet_case_insensitive :
    (∀ (s : Spreadsheet) (title : String),
      GetSheet s title = none ↔
        ∀ sh ∈ s.Sheets, ¬ (stringsToLower sh.Properties.Title) = (stringsToLower title))
    ∧ (∀ (s : Spreadsheet) (title : String) (sh : Sheet),
        GetSheet s title = some sh →
          ∃ pre post, s.Sheets = pre ++ sh :: post
            ∧ (stringsToLower sh.Properties.Title) = (stringsToLower title)
            ∧ ∀ x ∈ pre, ¬ (stringsToLower x.Properties.Title) = (stringsToLower title))
    ∧ (∀ (s : Spreadsheet) (title newTitle : String)
        (batch : DuplicateSheetRequest → BatchOutcome)
        (refetch : Except GoErr Spreadsheet) (origin sh : Sheet),
        GetSheet s title = some origin → sh ∈ s.Sheets →
        (stringsToLower sh.Properties.Title) = (stringsToLower newTitle) →
        DuplicateSheet s title newTitle batch refetch = .error .destExists) := by
  refine ⟨?_, ?_, ?_⟩
  · intro s title
    exact getSheetLoop_eq_none (stringsToLower title) s.Sheets
  · intro s title sh h
    exact getSheetLoop_eq_some (stringsToLower title) s.Sheets sh h
  · intro s title newTitle batch refetch origin sh ho hmem hcase
    have hnone : ¬ GetSheet s newTitle = none := by
      simp only [GetSheet]
      rw [getSheetLoop_eq_none (stringsToLower newTitle) s.Sheets]
      intro hall
      exact absurd hcase (hall sh hmem)
    cases hdest : GetSheet s newTitle with
    | none => exact absurd hdest hnone
    | some d => simp [DuplicateSheet, ho, hdest]

/-- Witness for C10: with an existing sheet Data, duplicating to the
destination name DATA is refused. -/
theorem claim10_witness :
    DuplicateSheet
      { SpreadsheetId := "id",
        Sheets := [{ Properties := { Title := "Data", SheetId := 1, Index := 0 }, Data := [] }] }
      "Data" "DATA" (fun _ => .fail (.plain .eof)) (.error .eof)
      = .error .destExists :=
  claim10_get_sheet_case_insensitive.2.2 _ "Data" "DATA" _ _
    { Properties := { Title := "Data", SheetId := 1, Index := 0 }, Data := [] }
    { Properties := { Title := "Data", SheetId := 1, Index := 0 }, Data := [] }
    (by decide) (by simp) (by decide)
